import Mathlib

/-!
Verification of the LANGGRAPH_TUTORIALS repository specification against a
shallow Lean embedding of its application code.

The repository consists of three small LangGraph applications:

* `src/Chatbot/main.py` — a tool-augmented chatbot (web search, date/time,
  an `eval`-based calculator) with conditional tool routing;
* `src/Feedback-Driven_Blog_Agent/{main,app}.py` — an outline → draft →
  score refinement loop with the router `blog_optimizer` (threshold 7.0);
* `src/stock_market_agent/app.py` — a stock agent with `get_stock_price`,
  `buy_stocks` and `sell_stocks`, the latter two gated by an interrupt /
  resume human confirmation.

External collaborators (the LLM call, the market-data backend, Python's
builtin `eval`, the graph engine's scheduling) are modelled as explicit
oracle parameters; machine floats are modelled as exact rationals; Python
string operations (`upper`, `lower`, `strip`, f-string interpolation) are
modelled characterwise over `List Char` / `String`.
-/

/-! ## Model of the Python string primitives used by the sources -/

/-- Characters removed by Python `str.strip()`: space, tab, newline,
carriage return, vertical tab and form feed. -/
def pyIsSpace (c : Char) : Bool :=
  c == ' ' || c == '\t' || c == '\n' || c == '\r' || c == '\x0b' || c == '\x0c'

/-- Python `str.strip()` on the underlying character list: drop whitespace
from the front, then from the back. -/
def pyStripList (l : List Char) : List Char :=
  List.rdropWhile pyIsSpace (List.dropWhile pyIsSpace l)

/-- Python `str.strip()`. -/
def pyStrip (s : String) : String :=
  String.mk (pyStripList s.data)

/-- Python `str.upper()`, modelled characterwise with the ASCII case map
(`Char.toUpper`); the tickers and answers handled by the sources are ASCII. -/
def pyUpper (s : String) : String :=
  String.mk (s.data.map Char.toUpper)

/-- Python `str.lower()`, modelled characterwise with the ASCII case map. -/
def pyLower (s : String) : String :=
  String.mk (s.data.map Char.toLower)

/-- The string `sub` occurs contiguously inside `s`. -/
def strContains (s sub : String) : Prop :=
  ∃ a b, s = a ++ sub ++ b

/-! ## Model of Python numeric primitives -/

/-- Floor of a rational, computed on the numerator/denominator pair. -/
def ratFloor (q : ℚ) : ℤ :=
  q.num.fdiv q.den

/-- Python `round` to the nearest integer with round-half-to-even
tie-breaking (banker's rounding), on the exact rational model of a float. -/
def roundHalfEven (q : ℚ) : ℤ :=
  let f : ℤ := ratFloor q
  let frac : ℚ := q - (f : ℚ)
  if frac < 1/2 then f
  else if 1/2 < frac then f + 1
  else if f % 2 = 0 then f else f + 1

/-- Python `round(x, 2)`: round to two decimal places. -/
def pyRound2 (q : ℚ) : ℚ :=
  (roundHalfEven (q * 100) : ℚ) / 100

/-! ## src/stock_market_agent/app.py — tools

A tool body either returns a result directly or suspends at the
`interrupt(...)` call site, carrying the confirmation question together with
the continuation that consumes the resume answer (`decision`).  Per the
interrupt/resume contract of the orchestration framework (spec §4.3),
resuming runs exactly that continuation: code before the interrupt is not
re-executed, which this embedding realises by construction.  The rendering
of a float into an f-string is abstracted as the `showPrice` parameter. -/

inductive ToolOutcome where
  | done (result : String)
  | suspended (question : String) (resume : String → String)

/-- The f-string passed to `interrupt` in `buy_stocks` / `sell_stocks`:
`"Do you want to {action} {quantity} shares of {ticker_symbol} for
${total_price}? (yes/no)"` with `action` ∈ {`buy`, `sell`}. -/
def tradeQuestion (action : String) (showPrice : ℚ → String)
    (ticker_symbol : String) (quantity : ℤ) (total_price : ℚ) : String :=
  "Do you want to " ++ (action ++ (" " ++ (toString quantity ++
    (" shares of " ++ (ticker_symbol ++ (" for $" ++
      (showPrice total_price ++ "? (yes/no)")))))))

/-- The confirmation f-string `"✅ You {verb} {quantity} shares of
{ticker_symbol} for ${total_price}."` with `verb` ∈ {`bought`, `sold`}. -/
def tradeConfirm (verb : String) (showPrice : ℚ → String)
    (ticker_symbol : String) (quantity : ℤ) (total_price : ℚ) : String :=
  "✅ You " ++ (verb ++ (" " ++ (toString quantity ++
    (" shares of " ++ (ticker_symbol ++ (" for $" ++
      (showPrice total_price ++ ".")))))))

/-- The code after the `interrupt` call in `buy_stocks` / `sell_stocks`:
`if decision.lower() == "yes": return <confirmation> else: return
"❌ Transaction cancelled."` -/
def tradeResume (verb : String) (showPrice : ℚ → String)
    (ticker_symbol : String) (quantity : ℤ) (total_price : ℚ)
    (decision : String) : String :=
  if pyLower decision = "yes" then
    tradeConfirm verb showPrice ticker_symbol quantity total_price
  else
    "❌ Transaction cancelled."

/-- `buy_stocks(ticker_symbol, quantity, total_price)` from
src/stock_market_agent/app.py lines 64–87. -/
def buy_stocks (showPrice : ℚ → String) (ticker_symbol : String)
    (quantity : ℤ) (total_price : ℚ) : ToolOutcome :=
  if quantity ≤ 0 then .done "❌ Error: Quantity must be positive"
  else if total_price ≤ 0 then .done "❌ Error: Total price must be positive"
  else .suspended (tradeQuestion "buy" showPrice ticker_symbol quantity total_price)
    (tradeResume "bought" showPrice ticker_symbol quantity total_price)

/-- `sell_stocks(ticker_symbol, quantity, total_price)` from
src/stock_market_agent/app.py lines 91–114. -/
def sell_stocks (showPrice : ℚ → String) (ticker_symbol : String)
    (quantity : ℤ) (total_price : ℚ) : ToolOutcome :=
  if quantity ≤ 0 then .done "❌ Error: Quantity must be positive"
  else if total_price ≤ 0 then .done "❌ Error: Total price must be positive"
  else .suspended (tradeQuestion "sell" showPrice ticker_symbol quantity total_price)
    (tradeResume "sold" showPrice ticker_symbol quantity total_price)

/-! ## src/stock_market_agent/app.py — get_stock_price -/

/-- Result of `get_stock_price`: the Python function returns either a float
(the rounded closing price) or an error string. -/
inductive PriceResult where
  | price (value : ℚ)
  | errText (msg : String)
deriving DecidableEq

/-- ASCII single quote, kept out of string literals. -/
def squote : String :=
  String.singleton (Char.ofNat 39)

/-- The error f-string `"Error: No data found for symbol '{symbol}'. Check
if the ticker is correct."` -/
def noDataMsg (symbol : String) : String :=
  "Error: No data found for symbol " ++ (squote ++ (symbol ++ (squote ++
    ". Check if the ticker is correct.")))

/-- `get_stock_price(ticker_symbol, period)` from
src/stock_market_agent/app.py lines 32–60.  The Yahoo Finance call
`yf.Ticker(symbol).history(period=period)` is the oracle `fetchClose`,
returning the `Close` column of the history (`.error` models an exception
raised inside the `try` block). -/
def get_stock_price (fetchClose : String → String → Except String (List ℚ))
    (ticker_symbol : String) (period : String) : PriceResult :=
  let symbol := pyStrip (pyUpper ticker_symbol)
  match fetchClose symbol period with
  | .error e => .errText ("An error occurred: " ++ e)
  | .ok [] => .errText (noDataMsg symbol)
  | .ok (c :: rest) =>
      .price (pyRound2 ((c :: rest).getLast (List.cons_ne_nil c rest)))

/-! ## src/Feedback-Driven_Blog_Agent/{main,app}.py — refinement loop

The two files define the identical `BlogState`, nodes and router (main.py
lines 9–116, app.py lines 17–134).  The LLM calls `llm.invoke(prompt)` and
`llm_judge.with_structured_output(BlogEvaluation).invoke(prompt)` are the
oracles `llm` and `judgeRaw`; the prompt strings are reproduced verbatim. -/

/-- `BlogState` (TypedDict).  Fields that a run has not yet written are the
empty string / `0`. -/
structure BlogState where
  topic : String
  outline : String
  final_blog : String
  blog_score : ℚ
  feedback : String
deriving DecidableEq

/-- `BlogEvaluation` (pydantic model): a validated structured judge result. -/
structure BlogEvaluation where
  score : ℚ
  feedback : String
deriving DecidableEq

/-- Validation declared on `BlogEvaluation`: `score: float = Field(...,
ge=0.0, le=10.0)`; a raw structured result outside the declared bounds
fails pydantic validation and no `BlogEvaluation` value is produced. -/
def BlogEvaluation.validate (score : ℚ) (feedback : String) : Option BlogEvaluation :=
  if 0 ≤ score ∧ score ≤ 10 then some { score := score, feedback := feedback }
  else none

/-- Prompt built by `create_outline`. -/
def outlinePrompt (topic : String) : String :=
  "Create a detailed blog outline on: " ++ topic

/-- Prompt built by `create_blog` when `state.get("feedback", "")` is
non-empty (Python truthiness of the string). -/
def blogPromptWithFeedback (feedback outline : String) : String :=
  "\nImprove the blog using this feedback:\n\nFeedback:\n" ++ (feedback ++
    ("\n\nBlog outline:\n" ++ (outline ++ "\n\nRewrite the blog better.\n")))

/-- Prompt built by `create_blog` when no feedback is present. -/
def blogPromptPlain (outline : String) : String :=
  "\nWrite a detailed blog based on this outline:\n\n" ++ (outline ++ "\n")

/-- Prompt built by `score_blog` (the literal braces of the JSON example are
written as their character codes). -/
def scorePrompt (outline blog : String) : String :=
  "\nEvaluate the blog based on how well it follows the outline.\n\nOutline:\n" ++
    (outline ++ ("\n\nBlog:\n" ++ (blog ++
      ("\n\nReturn JSON only:\n\x7b\"score\": number between 0 and 10, " ++
        "\"feedback\": \"how to improve\"\x7d\n"))))

/-- `create_outline` node. -/
def create_outline (llm : String → String) (state : BlogState) : BlogState :=
  { state with outline := llm (outlinePrompt state.topic) }

/-- `create_blog` node. -/
def create_blog (llm : String → String) (state : BlogState) : BlogState :=
  let feedback := state.feedback
  let prompt :=
    if feedback = "" then blogPromptPlain state.outline
    else blogPromptWithFeedback feedback state.outline
  { state with final_blog := llm prompt }

/-- `score_blog` node.  `judgeRaw` is the raw structured model output
(score, feedback) before validation; an invalid raw result makes the
structured-output call raise, modelled as `none`. -/
def score_blog (judgeRaw : String → ℚ × String) (state : BlogState) : Option BlogState :=
  let raw := judgeRaw (scorePrompt state.outline state.final_blog)
  match BlogEvaluation.validate raw.1 raw.2 with
  | some result =>
      some { state with blog_score := result.score, feedback := result.feedback }
  | none => none

/-- `blog_optimizer` router (main.py lines 91–94, app.py lines 105–108). -/
def blog_optimizer (state : BlogState) : String :=
  if state.blog_score < 7 then "optimize blog"
  else "end"

/-- Outcome of driving the compiled blog graph. -/
inductive BlogRunOutcome where
  | finished (state : BlogState)
  | validationError
  | iterationBudgetExhausted
deriving DecidableEq

/-- The cycle `score_node --optimize blog--> blog_node --> score_node`
declared by `add_conditional_edges` (main.py lines 109–116): starting from a
state just produced by `score_node`, route via `blog_optimizer`; `fuel`
bounds the number of further routing decisions we are willing to execute. -/
def blogLoopFrom (llm : String → String) (judgeRaw : String → ℚ × String) :
    Nat → BlogState → BlogRunOutcome
  | 0, _ => .iterationBudgetExhausted
  | Nat.succ fuel, state =>
    if blog_optimizer state = "end" then .finished state
    else
      match score_blog judgeRaw (create_blog llm state) with
      | some state2 => blogLoopFrom llm judgeRaw fuel state2
      | none => .validationError

/-- A full run of the compiled graph on `{"topic": topic}`:
`START → outline_node → blog_node → score_node → (conditional edges)`. -/
def runBlogApp (llm : String → String) (judgeRaw : String → ℚ × String)
    (fuel : Nat) (topic : String) : BlogRunOutcome :=
  let st0 : BlogState :=
    { topic := topic, outline := "", final_blog := "", blog_score := 0, feedback := "" }
  match score_blog judgeRaw (create_blog llm (create_outline llm st0)) with
  | some st1 => blogLoopFrom llm judgeRaw fuel st1
  | none => .validationError

/-! ## src/Chatbot/main.py — calculator tool and conditional tool routing -/

/-- `calculator_tool(expression)` from src/Chatbot/main.py lines 34–42:
`try: return str(eval(expression)) except Exception as e: return f"Error in
calculation: {str(e)}"`.  Python's builtin `eval` is the oracle `pyEval`
(`.error` models a raised exception). -/
def calculator_tool (pyEval : String → Except String ℤ) (expression : String) : String :=
  match pyEval expression with
  | .ok result => toString result
  | .error e => "Error in calculation: " ++ e

/-- Value of a character as a digit in base ≤ 16, as Python's int parser
accepts it (`0-9`, `a-f`, `A-F`). -/
def hexDigitVal (c : Char) : Option Nat :=
  if 48 ≤ c.toNat ∧ c.toNat ≤ 57 then some (c.toNat - 48)
  else if 97 ≤ c.toNat ∧ c.toNat ≤ 102 then some (c.toNat - 87)
  else if 65 ≤ c.toNat ∧ c.toNat ≤ 70 then some (c.toNat - 55)
  else none

/-- Parse a non-empty digit string in the given base. -/
def parseDigitsBase (base : Nat) (l : List Char) : Option Nat :=
  if l.isEmpty then none
  else
    l.foldl
      (fun acc c =>
        match acc, hexDigitVal c with
        | some n, some d => if d < base then some (n * base + d) else none
        | _, _ => none)
      (some 0)

/-- The integer-literal fragment of Python's builtin `eval`: a decimal
literal such as `17`, or a hexadecimal literal such as `0x10` (which
evaluates to 16).  On this fragment the model agrees with CPython. -/
def pyEvalIntFrag (expression : String) : Except String ℤ :=
  match expression.data with
  | '0' :: 'x' :: rest =>
      match parseDigitsBase 16 rest with
      | some n => .ok (Int.ofNat n)
      | none => .error "invalid syntax"
  | l =>
      match parseDigitsBase 10 l with
      | some n => .ok (Int.ofNat n)
      | none => .error "invalid syntax"

/-- The character set the specification permits for calculator input:
`[0-9+-*/(). ]`. -/
def arithChars : List Char :=
  ['0', '1', '2', '3', '4', '5', '6', '7', '8', '9',
   '+', '-', '*', '/', '(', ')', '.', ' ']

/-- Does the expression consist only of the permitted arithmetic characters? -/
def onlyArithChars (s : String) : Bool :=
  s.data.all (fun c => arithChars.contains c)

/-! ## Conditional tool routing (Chatbot lines 73–79, stock agent lines 158–160) -/

/-- A tool call requested by the model: name plus serialized arguments. -/
structure ToolCall where
  name : String
  args : String
deriving DecidableEq

/-- A model response: text content plus the list of requested tool calls. -/
structure AgentResponse where
  content : String
  tool_calls : List ToolCall
deriving DecidableEq

/-- Modelled from the spec: the framework's `tools_condition` router used by
`graph.add_conditional_edges("chat_node"/"agent", tools_condition)` — "after
the agent step runs, inspect whether the model's response includes one or
more tool calls.  If yes, route to a tool-execution step ...  If no tool
calls are present, route to the terminal marker."  `"END"` is the terminal
marker. -/
def tools_condition (response : AgentResponse) : String :=
  if response.tool_calls.isEmpty then "END" else "tools"

/-- Routing of the conversational graphs: conditional edges after the agent
node, and the unconditional edge `graph.add_edge("tools", <agent node>)`
back to the agent. -/
def chatRoute (node : String) (response : AgentResponse) : String :=
  if node = "agent" then tools_condition response
  else if node = "tools" then "agent"
  else "END"

/-- One message of the conversation state (`messages` with `add_messages`). -/
inductive ChatMsg where
  | user (content : String)
  | assistant (response : AgentResponse)
  | toolMsg (content : String)
deriving DecidableEq

/-- The tool-execution node (`ToolNode`): run each requested tool and append
its result as a tool message. -/
def execTools (runTool : ToolCall → String) (calls : List ToolCall) : List ChatMsg :=
  calls.map (fun c => ChatMsg.toolMsg (runTool c))

/-- Drive the conversational graph from the agent node: invoke the model,
append its response, and follow the conditional edges; on `"tools"` run the
tool node and loop back to the agent (edge `tools → agent`), on `"END"`
stop.  `fuel` bounds the number of agent turns. -/
def runChat (model : List ChatMsg → AgentResponse) (runTool : ToolCall → String) :
    Nat → List ChatMsg → Option (List ChatMsg)
  | 0, _ => none
  | Nat.succ fuel, msgs =>
    let response := model msgs
    let msgs2 := msgs ++ [ChatMsg.assistant response]
    if tools_condition response = "tools" then
      runChat model runTool fuel (msgs2 ++ execTools runTool response.tool_calls)
    else some msgs2

/-! ## Helper lemmas on the Python string model -/

theorem char_toNat_ofNat (n : Nat) (h : n.isValidChar) : (Char.ofNat n).toNat = n := by
  rw [Char.ofNat, dif_pos h]
  rfl

theorem char_toUpper_eq (c : Char) :
    Char.toUpper c = if c.toNat ≥ 97 ∧ c.toNat ≤ 122 then Char.ofNat (c.toNat - 32) else c := rfl

theorem char_toUpper_idem (c : Char) : Char.toUpper (Char.toUpper c) = Char.toUpper c := by
  by_cases h : c.toNat ≥ 97 ∧ c.toNat ≤ 122
  · have hv : (c.toNat - 32).isValidChar := by
      unfold Nat.isValidChar
      left
      omega
    rw [char_toUpper_eq c, if_pos h, char_toUpper_eq, char_toNat_ofNat _ hv, if_neg (by omega)]
  · rw [char_toUpper_eq c, if_neg h, char_toUpper_eq c, if_neg h]

theorem dropWhile_rdropWhile_dropWhile (l : List Char) :
    List.dropWhile pyIsSpace (List.rdropWhile pyIsSpace (List.dropWhile pyIsSpace l)) =
      List.rdropWhile pyIsSpace (List.dropWhile pyIsSpace l) := by
  rw [List.dropWhile_eq_self_iff]
  intro hl
  have hpre := List.rdropWhile_prefix pyIsSpace (List.dropWhile pyIsSpace l)
  have hlen : 0 < (List.dropWhile pyIsSpace l).length :=
    Nat.lt_of_lt_of_le hl hpre.length_le
  have hget := List.IsPrefix.getElem hpre hl
  have hz := List.dropWhile_get_zero_not pyIsSpace l hlen
  simp only [List.get_eq_getElem] at hz ⊢
  simpa [hget] using hz

theorem pyStripList_idem (l : List Char) : pyStripList (pyStripList l) = pyStripList l := by
  unfold pyStripList
  rw [dropWhile_rdropWhile_dropWhile l]
  exact List.rdropWhile_idempotent _ _

theorem pyStripList_sublist (l : List Char) : (pyStripList l).Sublist l :=
  ((List.rdropWhile_prefix pyIsSpace (List.dropWhile pyIsSpace l)).sublist).trans
    ((List.dropWhile_suffix pyIsSpace).sublist)

theorem map_fixed {f : Char → Char} {l : List Char} (h : ∀ a ∈ l, f a = a) : l.map f = l := by
  rw [List.map_congr_left h]
  simp

/-- Normalizing a ticker twice is the same as normalizing it once. -/
theorem pyStripUpper_idem (s : String) :
    pyStrip (pyUpper (pyStrip (pyUpper s))) = pyStrip (pyUpper s) := by
  show String.mk (pyStripList ((pyStripList (s.data.map Char.toUpper)).map Char.toUpper)) =
    String.mk (pyStripList (s.data.map Char.toUpper))
  have hfix : (pyStripList (s.data.map Char.toUpper)).map Char.toUpper =
      pyStripList (s.data.map Char.toUpper) := by
    apply map_fixed
    intro a ha
    have hmem : a ∈ s.data.map Char.toUpper :=
      (pyStripList_sublist (s.data.map Char.toUpper)).mem ha
    obtain ⟨b, _, hb⟩ := List.mem_map.mp hmem
    rw [← hb]
    exact char_toUpper_idem b
  rw [hfix, pyStripList_idem]

theorem tradeQuestion_contains_ticker (action : String) (showPrice : ℚ → String)
    (t : String) (q : ℤ) (p : ℚ) :
    strContains (tradeQuestion action showPrice t q p) t :=
  ⟨"Do you want to " ++ (action ++ (" " ++ (toString q ++ " shares of "))),
   " for $" ++ (showPrice p ++ "? (yes/no)"),
   by simp [tradeQuestion, String.append_assoc]⟩

theorem tradeQuestion_contains_quantity (action : String) (showPrice : ℚ → String)
    (t : String) (q : ℤ) (p : ℚ) :
    strContains (tradeQuestion action showPrice t q p) (toString q) :=
  ⟨"Do you want to " ++ (action ++ " "),
   " shares of " ++ (t ++ (" for $" ++ (showPrice p ++ "? (yes/no)"))),
   by simp [tradeQuestion, String.append_assoc]⟩

theorem tradeQuestion_contains_price (action : String) (showPrice : ℚ → String)
    (t : String) (q : ℤ) (p : ℚ) :
    strContains (tradeQuestion action showPrice t q p) (showPrice p) :=
  ⟨"Do you want to " ++ (action ++ (" " ++ (toString q ++ (" shares of " ++ (t ++ " for $"))))),
   "? (yes/no)",
   by simp [tradeQuestion, String.append_assoc]⟩

theorem tradeConfirm_contains_ticker (verb : String) (showPrice : ℚ → String)
    (t : String) (q : ℤ) (p : ℚ) :
    strContains (tradeConfirm verb showPrice t q p) t :=
  ⟨"✅ You " ++ (verb ++ (" " ++ (toString q ++ " shares of "))),
   " for $" ++ (showPrice p ++ "."),
   by simp [tradeConfirm, String.append_assoc]⟩

theorem tradeConfirm_contains_quantity (verb : String) (showPrice : ℚ → String)
    (t : String) (q : ℤ) (p : ℚ) :
    strContains (tradeConfirm verb showPrice t q p) (toString q) :=
  ⟨"✅ You " ++ (verb ++ " "),
   " shares of " ++ (t ++ (" for $" ++ (showPrice p ++ "."))),
   by simp [tradeConfirm, String.append_assoc]⟩

theorem tradeConfirm_contains_price (verb : String) (showPrice : ℚ → String)
    (t : String) (q : ℤ) (p : ℚ) :
    strContains (tradeConfirm verb showPrice t q p) (showPrice p) :=
  ⟨"✅ You " ++ (verb ++ (" " ++ (toString q ++ (" shares of " ++ (t ++ " for $"))))),
   ".",
   by simp [tradeConfirm, String.append_assoc]⟩

theorem tradeConfirm_head (verb : String) (showPrice : ℚ → String)
    (t : String) (q : ℤ) (p : ℚ) :
    (tradeConfirm verb showPrice t q p).data.head? = some '✅' := by
  unfold tradeConfirm
  rw [String.data_append]
  rw [show ("✅ You " : String).data = '✅' :: " You ".data from rfl]
  rfl

theorem tradeConfirm_ne_cancelled (verb : String) (showPrice : ℚ → String)
    (t : String) (q : ℤ) (p : ℚ) :
    tradeConfirm verb showPrice t q p ≠ "❌ Transaction cancelled." := by
  intro h
  have h2 : (tradeConfirm verb showPrice t q p).data.head? =
      ("❌ Transaction cancelled." : String).data.head? := by rw [h]
  rw [tradeConfirm_head] at h2
  exact absurd h2 (by decide)

theorem tradeResume_yes (verb : String) (showPrice : ℚ → String)
    (t : String) (q : ℤ) (p : ℚ) :
    tradeResume verb showPrice t q p "yes" = tradeConfirm verb showPrice t q p := by
  unfold tradeResume
  rw [if_pos (show pyLower "yes" = "yes" from by decide)]

theorem tradeResume_not_yes (verb : String) (showPrice : ℚ → String)
    (t : String) (q : ℤ) (p : ℚ) (answer : String) (h : pyLower answer ≠ "yes") :
    tradeResume verb showPrice t q p answer = "❌ Transaction cancelled." := by
  unfold tradeResume
  rw [if_neg h]

theorem tradeResume_confirm_iff (verb : String) (showPrice : ℚ → String)
    (t : String) (q : ℤ) (p : ℚ) (answer : String) :
    tradeResume verb showPrice t q p answer = tradeConfirm verb showPrice t q p ↔
      pyLower answer = "yes" := by
  constructor
  · intro h
    by_contra hno
    rw [tradeResume_not_yes verb showPrice t q p answer hno] at h
    exact tradeConfirm_ne_cancelled verb showPrice t q p h.symm
  · intro h
    unfold tradeResume
    rw [if_pos h]

theorem buy_stocks_valid (showPrice : ℚ → String) (ticker : String)
    (quantity : ℤ) (total_price : ℚ) (hq : 0 < quantity) (hp : 0 < total_price) :
    buy_stocks showPrice ticker quantity total_price =
      ToolOutcome.suspended (tradeQuestion "buy" showPrice ticker quantity total_price)
        (tradeResume "bought" showPrice ticker quantity total_price) := by
  unfold buy_stocks
  rw [if_neg (not_le.mpr hq), if_neg (not_le.mpr hp)]

theorem sell_stocks_valid (showPrice : ℚ → String) (ticker : String)
    (quantity : ℤ) (total_price : ℚ) (hq : 0 < quantity) (hp : 0 < total_price) :
    sell_stocks showPrice ticker quantity total_price =
      ToolOutcome.suspended (tradeQuestion "sell" showPrice ticker quantity total_price)
        (tradeResume "sold" showPrice ticker quantity total_price) := by
  unfold sell_stocks
  rw [if_neg (not_le.mpr hq), if_neg (not_le.mpr hp)]

/-! ## Claim theorems -/

/-- Claim C2 (counterexample): at score 5 (which is below the 7.0 threshold)
the router returns the string `"optimize blog"`, not `"optimize"` as the
claim states, so the claim's equality fails at this concrete state. -/
theorem blog_optimizer_not_optimize :
    (5 : ℚ) < 7 ∧
    blog_optimizer ⟨"t", "o", "b", 5, "f"⟩ ≠ "optimize" := by
  constructor
  · decide
  · decide

/-- Claim C2 (amended): for every state, `blog_optimizer` returns
`"optimize blog"` (the label of the optimize branch in the `path_map`) iff
the score is strictly below 7.0, and `"end"` otherwise; in particular at
score exactly 7.0 it returns `"end"`. -/
theorem blog_optimizer_boundary (state : BlogState) :
    (blog_optimizer state = "optimize blog" ↔ state.blog_score < 7) ∧
    (blog_optimizer state = "end" ↔ ¬ state.blog_score < 7) := by
  by_cases h : state.blog_score < 7 <;> simp [blog_optimizer, h]

/-- Claim C4: for positive quantity and price, `buy_stocks` suspends with a
question containing the ticker, the quantity and the price; resuming the
suspension with `"yes"` yields the confirmation message containing the same
ticker/quantity/price, and resuming with `"no"` yields the cancellation
message.  The suspension carries only the post-`interrupt` continuation
`tradeResume`, so the validation steps before the suspension point are not
re-executed on resume (they are not part of the continuation).  The same
holds for `sell_stocks` with the selling confirmation. -/
theorem trade_suspend_resume (showPrice : ℚ → String) (ticker : String)
    (quantity : ℤ) (total_price : ℚ) (hq : 0 < quantity) (hp : 0 < total_price) :
    (buy_stocks showPrice ticker quantity total_price =
        ToolOutcome.suspended (tradeQuestion "buy" showPrice ticker quantity total_price)
          (tradeResume "bought" showPrice ticker quantity total_price) ∧
      strContains (tradeQuestion "buy" showPrice ticker quantity total_price) ticker ∧
      strContains (tradeQuestion "buy" showPrice ticker quantity total_price) (toString quantity) ∧
      strContains (tradeQuestion "buy" showPrice ticker quantity total_price) (showPrice total_price) ∧
      tradeResume "bought" showPrice ticker quantity total_price "yes" =
        tradeConfirm "bought" showPrice ticker quantity total_price ∧
      strContains (tradeConfirm "bought" showPrice ticker quantity total_price) ticker ∧
      strContains (tradeConfirm "bought" showPrice ticker quantity total_price) (toString quantity) ∧
      strContains (tradeConfirm "bought" showPrice ticker quantity total_price) (showPrice total_price) ∧
      tradeResume "bought" showPrice ticker quantity total_price "no" =
        "❌ Transaction cancelled.") ∧
    (sell_stocks showPrice ticker quantity total_price =
        ToolOutcome.suspended (tradeQuestion "sell" showPrice ticker quantity total_price)
          (tradeResume "sold" showPrice ticker quantity total_price) ∧
      strContains (tradeQuestion "sell" showPrice ticker quantity total_price) ticker ∧
      strContains (tradeQuestion "sell" showPrice ticker quantity total_price) (toString quantity) ∧
      strContains (tradeQuestion "sell" showPrice ticker quantity total_price) (showPrice total_price) ∧
      tradeResume "sold" showPrice ticker quantity total_price "yes" =
        tradeConfirm "sold" showPrice ticker quantity total_price ∧
      strContains (tradeConfirm "sold" showPrice ticker quantity total_price) ticker ∧
      strContains (tradeConfirm "sold" showPrice ticker quantity total_price) (toString quantity) ∧
      strContains (tradeConfirm "sold" showPrice ticker quantity total_price) (showPrice total_price) ∧
      tradeResume "sold" showPrice ticker quantity total_price "no" =
        "❌ Transaction cancelled.") := by
  refine ⟨⟨buy_stocks_valid showPrice ticker quantity total_price hq hp, ?_, ?_, ?_, ?_, ?_, ?_, ?_, ?_⟩,
    ⟨sell_stocks_valid showPrice ticker quantity total_price hq hp, ?_, ?_, ?_, ?_, ?_, ?_, ?_, ?_⟩⟩
  · exact tradeQuestion_contains_ticker _ _ _ _ _
  · exact tradeQuestion_contains_quantity _ _ _ _ _
  · exact tradeQuestion_contains_price _ _ _ _ _
  · exact tradeResume_yes _ _ _ _ _
  · exact tradeConfirm_contains_ticker _ _ _ _ _
  · exact tradeConfirm_contains_quantity _ _ _ _ _
  · exact tradeConfirm_contains_price _ _ _ _ _
  · exact tradeResume_not_yes _ _ _ _ _ _ (by decide)
  · exact tradeQuestion_contains_ticker _ _ _ _ _
  · exact tradeQuestion_contains_quantity _ _ _ _ _
  · exact tradeQuestion_contains_price _ _ _ _ _
  · exact tradeResume_yes _ _ _ _ _
  · exact tradeConfirm_contains_ticker _ _ _ _ _
  · exact tradeConfirm_contains_quantity _ _ _ _ _
  · exact tradeConfirm_contains_price _ _ _ _ _
  · exact tradeResume_not_yes _ _ _ _ _ _ (by decide)

/-- Claim C4 (witness): the round trip at ticker `TSLA`, quantity 10,
price 250, with `toString` rendering the price. -/
theorem trade_suspend_resume_witness :
    0 < (10 : ℤ) ∧ 0 < (250 : ℚ) ∧
    (buy_stocks toString "TSLA" 10 250 =
        ToolOutcome.suspended (tradeQuestion "buy" toString "TSLA" 10 250)
          (tradeResume "bought" toString "TSLA" 10 250) ∧
      strContains (tradeQuestion "buy" toString "TSLA" 10 250) "TSLA" ∧
      tradeResume "bought" toString "TSLA" 10 250 "yes" =
        tradeConfirm "bought" toString "TSLA" 10 250 ∧
      tradeResume "bought" toString "TSLA" 10 250 "no" = "❌ Transaction cancelled.") ∧
    (sell_stocks toString "TSLA" 10 250 =
        ToolOutcome.suspended (tradeQuestion "sell" toString "TSLA" 10 250)
          (tradeResume "sold" toString "TSLA" 10 250) ∧
      tradeResume "sold" toString "TSLA" 10 250 "yes" =
        tradeConfirm "sold" toString "TSLA" 10 250) := by
  have h := trade_suspend_resume toString "TSLA" 10 250 (by decide) (by decide)
  exact ⟨by decide, by decide,
    ⟨h.1.1, h.1.2.1, h.1.2.2.2.2.1, h.1.2.2.2.2.2.2.2.2⟩,
    ⟨h.2.1, h.2.2.2.2.2.1⟩⟩

/-- Claim C5: with non-positive quantity or price, `buy_stocks` and
`sell_stocks` return one of the two local error texts directly, and no
suspension (confirmation request) occurs. -/
theorem trade_reject_nonpositive (showPrice : ℚ → String) (ticker : String)
    (quantity : ℤ) (total_price : ℚ) (h : quantity ≤ 0 ∨ total_price ≤ 0) :
    (∃ msg, buy_stocks showPrice ticker quantity total_price = ToolOutcome.done msg ∧
        (msg = "❌ Error: Quantity must be positive" ∨
          msg = "❌ Error: Total price must be positive")) ∧
    (∃ msg, sell_stocks showPrice ticker quantity total_price = ToolOutcome.done msg ∧
        (msg = "❌ Error: Quantity must be positive" ∨
          msg = "❌ Error: Total price must be positive")) ∧
    (∀ question resume, buy_stocks showPrice ticker quantity total_price ≠
        ToolOutcome.suspended question resume) ∧
    (∀ question resume, sell_stocks showPrice ticker quantity total_price ≠
        ToolOutcome.suspended question resume) := by
  have hbuy : buy_stocks showPrice ticker quantity total_price =
      ToolOutcome.done "❌ Error: Quantity must be positive" ∨
      buy_stocks showPrice ticker quantity total_price =
      ToolOutcome.done "❌ Error: Total price must be positive" := by
    unfold buy_stocks
    rcases h with hq | hp
    · left
      rw [if_pos hq]
    · by_cases hq : quantity ≤ 0
      · left
        rw [if_pos hq]
      · right
        rw [if_neg hq, if_pos hp]
  have hsell : sell_stocks showPrice ticker quantity total_price =
      ToolOutcome.done "❌ Error: Quantity must be positive" ∨
      sell_stocks showPrice ticker quantity total_price =
      ToolOutcome.done "❌ Error: Total price must be positive" := by
    unfold sell_stocks
    rcases h with hq | hp
    · left
      rw [if_pos hq]
    · by_cases hq : quantity ≤ 0
      · left
        rw [if_pos hq]
      · right
        rw [if_neg hq, if_pos hp]
  refine ⟨?_, ?_, ?_, ?_⟩
  · rcases hbuy with h1 | h1
    · exact ⟨_, h1, Or.inl rfl⟩
    · exact ⟨_, h1, Or.inr rfl⟩
  · rcases hsell with h1 | h1
    · exact ⟨_, h1, Or.inl rfl⟩
    · exact ⟨_, h1, Or.inr rfl⟩
  · intro question resume hcontra
    rcases hbuy with h1 | h1 <;> rw [h1] at hcontra <;> exact ToolOutcome.noConfusion hcontra
  · intro question resume hcontra
    rcases hsell with h1 | h1 <;> rw [h1] at hcontra <;> exact ToolOutcome.noConfusion hcontra

/-- Claim C5 (witness): quantity 0 at price 250 is rejected without
suspension. -/
theorem trade_reject_nonpositive_witness :
    ((0 : ℤ) ≤ 0 ∨ (250 : ℚ) ≤ 0) ∧
    (∃ msg, buy_stocks toString "TSLA" 0 250 = ToolOutcome.done msg ∧
        (msg = "❌ Error: Quantity must be positive" ∨
          msg = "❌ Error: Total price must be positive")) ∧
    (∀ question resume, buy_stocks toString "TSLA" 0 250 ≠
        ToolOutcome.suspended question resume) ∧
    (∀ question resume, sell_stocks toString "TSLA" 0 250 ≠
        ToolOutcome.suspended question resume) := by
  have h := trade_reject_nonpositive toString "TSLA" 0 250 (Or.inl (by decide))
  exact ⟨Or.inl (by decide), h.1, h.2.2.1, h.2.2.2⟩

/-- Claim C9: for a suspended `buy_stocks`/`sell_stocks` call, a resume
answer confirms the transaction iff its `.lower()` equals `"yes"` — so
`"YES"` and `"Yes"` confirm — and every other answer, the empty string
included, produces the cancellation message. -/
theorem trade_resume_decision (showPrice : ℚ → String) (ticker : String)
    (quantity : ℤ) (total_price : ℚ) (hq : 0 < quantity) (hp : 0 < total_price) :
    (∃ question, buy_stocks showPrice ticker quantity total_price =
        ToolOutcome.suspended question (tradeResume "bought" showPrice ticker quantity total_price)) ∧
    (∃ question, sell_stocks showPrice ticker quantity total_price =
        ToolOutcome.suspended question (tradeResume "sold" showPrice ticker quantity total_price)) ∧
    (∀ answer,
      (tradeResume "bought" showPrice ticker quantity total_price answer =
          tradeConfirm "bought" showPrice ticker quantity total_price ↔
        pyLower answer = "yes") ∧
      (pyLower answer ≠ "yes" →
        tradeResume "bought" showPrice ticker quantity total_price answer =
          "❌ Transaction cancelled.")) ∧
    (∀ answer,
      (tradeResume "sold" showPrice ticker quantity total_price answer =
          tradeConfirm "sold" showPrice ticker quantity total_price ↔
        pyLower answer = "yes") ∧
      (pyLower answer ≠ "yes" →
        tradeResume "sold" showPrice ticker quantity total_price answer =
          "❌ Transaction cancelled.")) ∧
    pyLower "YES" = "yes" ∧ pyLower "Yes" = "yes" ∧ pyLower "" ≠ "yes" := by
  refine ⟨⟨_, buy_stocks_valid showPrice ticker quantity total_price hq hp⟩,
    ⟨_, sell_stocks_valid showPrice ticker quantity total_price hq hp⟩,
    fun answer => ⟨tradeResume_confirm_iff _ _ _ _ _ _,
      tradeResume_not_yes _ _ _ _ _ _⟩,
    fun answer => ⟨tradeResume_confirm_iff _ _ _ _ _ _,
      tradeResume_not_yes _ _ _ _ _ _⟩,
    by decide, by decide, by decide⟩

/-- Claim C9 (witness): the decision characterisation at ticker `AAPL`,
quantity 3, price 99. -/
theorem trade_resume_decision_witness :
    0 < (3 : ℤ) ∧ 0 < (99 : ℚ) ∧
    (∃ question, buy_stocks toString "AAPL" 3 99 =
        ToolOutcome.suspended question (tradeResume "bought" toString "AAPL" 3 99)) ∧
    (tradeResume "bought" toString "AAPL" 3 99 "YES" =
        tradeConfirm "bought" toString "AAPL" 3 99 ↔ pyLower "YES" = "yes") ∧
    (pyLower "" ≠ "yes" →
      tradeResume "bought" toString "AAPL" 3 99 "" = "❌ Transaction cancelled.") := by
  have h := trade_resume_decision toString "AAPL" 3 99 (by decide) (by decide)
  exact ⟨by decide, by decide, h.1, (h.2.2.1 "YES").1, (h.2.2.1 "").2⟩

/-- Claim C1: the calculator forwards any expression to Python's `eval` and
returns `str(result)` whenever evaluation succeeds.  `"0x10"` contains the
character `x`, which is outside the permitted set `[0-9+-*/(). ]`, yet the
tool evaluates it and returns `"16"` — not an error result — refuting the
claimed fail-closed security boundary (the code has no character filter at
all). -/
theorem calculator_tool_evaluates_nonarith :
    onlyArithChars "0x10" = false ∧
    calculator_tool pyEvalIntFrag "0x10" = "16" ∧
    calculator_tool pyEvalIntFrag "0x10" ≠ "Error in calculation: invalid syntax" := by
  refine ⟨by decide, by decide, by decide⟩

theorem score_blog_const (st : BlogState) :
    score_blog (fun _ => ((5 : ℚ), "needs work")) st =
      some { st with blog_score := 5, feedback := "needs work" } := by
  have hval : BlogEvaluation.validate 5 "needs work" = some ⟨5, "needs work"⟩ := by
    unfold BlogEvaluation.validate
    rw [if_pos ⟨by norm_num, by norm_num⟩]
  simp only [score_blog, hval]

/-- Claim C3: the source declares no maximum iteration count for the
refinement loop.  With a judge model that always returns the (valid) score
5.0, the routing cycle `score_node → blog_node → score_node` never reaches
the terminal marker: for every iteration bound `fuel`, however large, the
run is still unfinished after `fuel` routing decisions.  The only thing that
stops a real run is the external framework's recursion limit, which raises
an error rather than finishing the workflow. -/
theorem blog_loop_no_iteration_cap (llm : String → String) (fuel : Nat) (topic : String) :
    runBlogApp llm (fun _ => ((5 : ℚ), "needs work")) fuel topic =
      BlogRunOutcome.iterationBudgetExhausted := by
  have hopt : ∀ st : BlogState, st.blog_score = 5 → blog_optimizer st ≠ "end" := by
    intro st h
    unfold blog_optimizer
    rw [h, if_pos (by norm_num)]
    decide
  have hloop : ∀ (f : Nat) (st : BlogState), st.blog_score = 5 →
      blogLoopFrom llm (fun _ => ((5 : ℚ), "needs work")) f st =
        BlogRunOutcome.iterationBudgetExhausted := by
    intro f
    induction f with
    | zero => intro st h; rfl
    | succ n ih =>
      intro st h
      rw [blogLoopFrom, if_neg (hopt st h), score_blog_const]
      exact ih _ rfl
  simp only [runBlogApp, score_blog_const]
  exact hloop fuel _ rfl

theorem validate_some_bounds {s : ℚ} {f : String} {ev : BlogEvaluation}
    (h : BlogEvaluation.validate s f = some ev) : 0 ≤ ev.score ∧ ev.score ≤ 10 := by
  unfold BlogEvaluation.validate at h
  split at h
  case isTrue hc =>
    cases h
    exact hc
  case isFalse hc =>
    cases h

/-- Claim C8: whenever the scoring step succeeds, the score written into the
state lies in the declared interval [0, 10]; a raw structured result whose
score violates the declared `ge=0.0, le=10.0` bounds fails validation and no
state is produced (the call raises instead of writing the state). -/
theorem score_blog_bounds (judgeRaw : String → ℚ × String) (state state2 : BlogState) :
    (score_blog judgeRaw state = some state2 →
      0 ≤ state2.blog_score ∧ state2.blog_score ≤ 10) ∧
    (¬ (0 ≤ (judgeRaw (scorePrompt state.outline state.final_blog)).1 ∧
          (judgeRaw (scorePrompt state.outline state.final_blog)).1 ≤ 10) →
      score_blog judgeRaw state = none) := by
  constructor
  · intro h
    simp only [score_blog] at h
    rcases hv : BlogEvaluation.validate (judgeRaw (scorePrompt state.outline state.final_blog)).1
        (judgeRaw (scorePrompt state.outline state.final_blog)).2 with _ | ev
    · rw [hv] at h
      cases h
    · rw [hv] at h
      have hb := validate_some_bounds hv
      cases h
      exact hb
  · intro h
    simp only [score_blog, BlogEvaluation.validate]
    rw [if_neg h]

/-- Claim C8 (witness): a raw score of 8 passes validation and is written;
a raw score of 11 fails validation and nothing is written. -/
theorem score_blog_bounds_witness :
    (score_blog (fun _ => ((8 : ℚ), "ok")) ⟨"t", "o", "b", 0, ""⟩ =
        some ⟨"t", "o", "b", 8, "ok"⟩ →
      0 ≤ (⟨"t", "o", "b", 8, "ok"⟩ : BlogState).blog_score ∧
        (⟨"t", "o", "b", 8, "ok"⟩ : BlogState).blog_score ≤ 10) ∧
    (0 ≤ (⟨"t", "o", "b", 8, "ok"⟩ : BlogState).blog_score ∧
      (⟨"t", "o", "b", 8, "ok"⟩ : BlogState).blog_score ≤ 10) ∧
    score_blog (fun _ => ((11 : ℚ), "bad")) ⟨"t", "o", "b", 0, ""⟩ = none := by
  have h1 := score_blog_bounds (fun _ => ((8 : ℚ), "ok")) ⟨"t", "o", "b", 0, ""⟩
    ⟨"t", "o", "b", 8, "ok"⟩
  have h2 := score_blog_bounds (fun _ => ((11 : ℚ), "bad")) ⟨"t", "o", "b", 0, ""⟩
    ⟨"t", "o", "b", 0, ""⟩
  exact ⟨h1.1, h1.1 (by decide), h2.2 (by decide)⟩

theorem tools_condition_end {r : AgentResponse} (h : tools_condition r ≠ "tools") :
    r.tool_calls = [] := by
  by_cases he : r.tool_calls.isEmpty
  · exact List.isEmpty_iff.mp he
  · exact absurd (by simp [tools_condition, he]) h

theorem runChat_last_no_tool_calls (model : List ChatMsg → AgentResponse)
    (runTool : ToolCall → String) :
    ∀ (fuel : Nat) (msgs out : List ChatMsg), runChat model runTool fuel msgs = some out →
      ∃ r, out.getLast? = some (ChatMsg.assistant r) ∧ r.tool_calls = [] := by
  intro fuel
  induction fuel with
  | zero =>
    intro msgs out h
    cases h
  | succ n ih =>
    intro msgs out h
    rw [runChat] at h
    by_cases hc : tools_condition (model msgs) = "tools"
    · rw [if_pos hc] at h
      exact ih _ _ h
    · rw [if_neg hc] at h
      cases h
      refine ⟨model msgs, ?_, tools_condition_end hc⟩
      exact List.getLast?_concat _

/-- Claim C7: after the agent step, `tools_condition` routes to the tool
node exactly when the response carries at least one tool call and to the
terminal marker `"END"` otherwise; the `tools → agent` edge is
unconditional; consequently every run of the conversational graph that
reaches the terminal marker ends with an agent response carrying no tool
calls. -/
theorem chat_tool_routing (response : AgentResponse)
    (model : List ChatMsg → AgentResponse) (runTool : ToolCall → String)
    (fuel : Nat) (msgs out : List ChatMsg) :
    (tools_condition response = "tools" ↔ response.tool_calls ≠ []) ∧
    (tools_condition response = "END" ↔ response.tool_calls = []) ∧
    chatRoute "tools" response = "agent" ∧
    (runChat model runTool fuel msgs = some out →
      ∃ r, out.getLast? = some (ChatMsg.assistant r) ∧ r.tool_calls = []) := by
  refine ⟨?_, ?_, rfl, runChat_last_no_tool_calls model runTool fuel msgs out⟩
  · rcases hr : response.tool_calls with _ | ⟨a, l⟩ <;> simp [tools_condition, hr]
  · rcases hr : response.tool_calls with _ | ⟨a, l⟩ <;> simp [tools_condition, hr]

/-- Claim C7 (witness): a model that answers `"hello"` with no tool calls
terminates in one agent turn, and the final message is that response. -/
theorem chat_tool_routing_witness :
    runChat (fun _ => ⟨"hello", []⟩) (fun _ => "tool result") 1 [] =
      some [ChatMsg.assistant ⟨"hello", []⟩] ∧
    (∃ r, [ChatMsg.assistant (⟨"hello", []⟩ : AgentResponse)].getLast? =
      some (ChatMsg.assistant r) ∧ r.tool_calls = []) := by
  have h := chat_tool_routing ⟨"hello", []⟩ (fun _ => ⟨"hello", []⟩)
    (fun _ => "tool result") 1 [] [ChatMsg.assistant ⟨"hello", []⟩]
  exact ⟨by decide, h.2.2.2 (by decide)⟩

/-- Claim C6 (counterexample): the code returns `round(float(close), 2)`,
not the raw last closing price: with a history whose last close is
3.14159, the tool returns 3.14, so "returns the last closing price" is
false as stated. -/
theorem get_stock_price_rounds :
    get_stock_price (fun _ _ => Except.ok [(3.14159 : ℚ)]) "AAPL" "1d" =
        PriceResult.price 3.14 ∧
    get_stock_price (fun _ _ => Except.ok [(3.14159 : ℚ)]) "AAPL" "1d" ≠
        PriceResult.price 3.14159 := by
  have hf : Int.fdiv 314159 1000 = 314 := by decide
  have h2 : pyRound2 3.14159 = 3.14 := by
    norm_num [pyRound2, roundHalfEven, ratFloor, hf]
  have h1 : get_stock_price (fun _ _ => Except.ok [(3.14159 : ℚ)]) "AAPL" "1d" =
      PriceResult.price (pyRound2 3.14159) := rfl
  constructor
  · rw [h1, h2]
  · rw [h1, h2]
    intro hcontra
    have : (3.14 : ℚ) = 3.14159 := PriceResult.price.inj hcontra
    norm_num at this

/-- Claim C6 (amended): `get_stock_price` normalizes the ticker, queries the
oracle, and (a) converts an internal failure to the error string
`"An error occurred: ..."` rather than raising, (b) returns the error
string `"Error: No data found for symbol '...'"` when no data exists for
the symbol, and (c) returns the last closing price rounded to two decimal
places as its float result when data exists.  Every branch yields a
`PriceResult`; no input raises. -/
theorem get_stock_price_spec (fetchClose : String → String → Except String (List ℚ))
    (ticker period : String) :
    (∀ e, fetchClose (pyStrip (pyUpper ticker)) period = Except.error e →
      get_stock_price fetchClose ticker period =
        PriceResult.errText ("An error occurred: " ++ e)) ∧
    (fetchClose (pyStrip (pyUpper ticker)) period = Except.ok [] →
      get_stock_price fetchClose ticker period =
        PriceResult.errText (noDataMsg (pyStrip (pyUpper ticker)))) ∧
    (∀ history c, fetchClose (pyStrip (pyUpper ticker)) period = Except.ok history →
      history.getLast? = some c →
      get_stock_price fetchClose ticker period = PriceResult.price (pyRound2 c)) := by
  refine ⟨?_, ?_, ?_⟩
  · intro e he
    simp only [get_stock_price, he]
  · intro he
    simp only [get_stock_price, he]
  · intro history c hh hc
    rcases history with _ | ⟨x, rest⟩
    · cases hc
    · simp only [get_stock_price, hh]
      have hne := List.cons_ne_nil x rest
      rw [List.getLast?_eq_getLast _ hne] at hc
      rw [Option.some.injEq] at hc
      rw [hc]

/-- Claim C6 (witness): the three branches at concrete oracles — a raised
internal error, an unknown symbol with empty history, and a history ending
at close 105. -/
theorem get_stock_price_spec_witness :
    get_stock_price (fun _ _ => Except.error "boom") "AAPL" "1d" =
        PriceResult.errText ("An error occurred: " ++ "boom") ∧
    get_stock_price (fun _ _ => Except.ok []) "MSFT" "1d" =
        PriceResult.errText (noDataMsg (pyStrip (pyUpper "MSFT"))) ∧
    get_stock_price (fun _ _ => Except.ok [(100 : ℚ), 105]) "TSLA" "5d" =
        PriceResult.price (pyRound2 105) :=
  ⟨(get_stock_price_spec (fun _ _ => Except.error "boom") "AAPL" "1d").1 "boom" rfl,
   (get_stock_price_spec (fun _ _ => Except.ok []) "MSFT" "1d").2.1 rfl,
   (get_stock_price_spec (fun _ _ => Except.ok [(100 : ℚ), 105]) "TSLA" "5d").2.2
     [(100 : ℚ), 105] 105 rfl rfl⟩

/-- Claim C10: `get_stock_price` gives the same result on a raw ticker and
on its normalized form `ticker.upper().strip()`, because the symbol it
actually uses is invariant under a second normalization. -/
theorem get_stock_price_normalization (fetchClose : String → String → Except String (List ℚ))
    (ticker period : String) :
    get_stock_price fetchClose (pyStrip (pyUpper ticker)) period =
      get_stock_price fetchClose ticker period := by
  simp only [get_stock_price, pyStripUpper_idem]
